import Mathlib

/-!
Shallow embedding of the order-lifecycle core of a restaurant point-of-sale
backend: the pricing engine (src/models/order.py, src/models/discount.py,
src/utils/order_validation.py), the order-number allocator and archival job
(src/utils/order_management.py), the websocket broadcast hub
(src/utils/websocket.py), and the order/payment route handlers
(src/routes/order.py, src/routes/payment.py).

Currency amounts are modelled as rationals; Python round(x, 2) is modelled
as rounding to two decimal places with ties going to the even integer of
hundredths, which is the float rounding mode Python uses.  Database rows are
lists of records; a query returning one row or None is modelled as an Option
argument holding the row the query would produce.  Python functions that can
raise are modelled with Except.
-/

namespace POSSpec

/-- Round a rational to the nearest integer, ties to even (the tie rule of
Python round). -/
def roundHalfEven (q : ℚ) : ℤ :=
  if q - ⌊q⌋ < 1/2 then ⌊q⌋
  else if 1/2 < q - ⌊q⌋ then ⌊q⌋ + 1
  else if ⌊q⌋ % 2 = 0 then ⌊q⌋ else ⌊q⌋ + 1

/-- Python round(x, 2): two-decimal rounding. -/
def round2 (q : ℚ) : ℚ := (roundHalfEven (q * 100) : ℚ) / 100

/-- OrderStatus from src/models/order.py: PREP, READY, DONE, VOID, REFUNDED,
PARTIALLY_REFUNDED.  These are all of the members of the enum. -/
inductive OrderStatus
  | prep
  | ready
  | done
  | void
  | refunded
  | partRefunded
deriving DecidableEq, Repr

/-- The .value string of each OrderStatus member. -/
def statusValue : OrderStatus → String
  | OrderStatus.prep => "prep"
  | OrderStatus.ready => "ready"
  | OrderStatus.done => "done"
  | OrderStatus.void => "void"
  | OrderStatus.refunded => "refunded"
  | OrderStatus.partRefunded => "partially_refunded"

/-- Python attribute lookup OrderStatus.NAME.  The route handlers in
src/routes/order.py mention OrderStatus.OPEN and OrderStatus.CANCELLED,
names that are not members of the enum in src/models/order.py; looking them
up yields none, modelling the AttributeError Python raises. -/
def statusAttr : String → Option OrderStatus
  | "PREP" => some OrderStatus.prep
  | "READY" => some OrderStatus.ready
  | "DONE" => some OrderStatus.done
  | "VOID" => some OrderStatus.void
  | "REFUNDED" => some OrderStatus.refunded
  | "PARTIALLY_REFUNDED" => some OrderStatus.partRefunded
  | _ => none

/-- The OrderStatus(value) constructor, by .value string. -/
def statusFromValue : String → Option OrderStatus
  | "prep" => some OrderStatus.prep
  | "ready" => some OrderStatus.ready
  | "done" => some OrderStatus.done
  | "void" => some OrderStatus.void
  | "refunded" => some OrderStatus.refunded
  | "partially_refunded" => some OrderStatus.partRefunded
  | _ => none

/-- PaymentMethod from src/models/order.py. -/
inductive PaymentMethod
  | cash
  | card
deriving DecidableEq, Repr

/-- The statuses counted as active: PREP and READY. -/
def activeStatus (s : OrderStatus) : Bool :=
  s = OrderStatus.prep || s = OrderStatus.ready

/-- The statuses archive_completed_orders treats as completed. -/
def completedStatus (s : OrderStatus) : Bool :=
  s = OrderStatus.done || s = OrderStatus.void ||
    s = OrderStatus.refunded || s = OrderStatus.partRefunded

/-- DiscountGroup from src/models/discount.py (the field the pricing code
reads). -/
structure DiscountGroup where
  available : Bool
deriving DecidableEq, Repr

/-- Discount from src/models/discount.py.  amount is stored positive for
percentage discounts and negative for flat discounts, per the column
comment. -/
structure Discount where
  id : ℤ
  name : String
  amount : ℚ
  is_percentage : Bool
  available : Bool
  group : DiscountGroup
deriving DecidableEq, Repr

/-- OrderItemMod from src/models/order.py: frozen mod snapshot. -/
structure OrderItemMod where
  mod_id : ℤ
  mod_price : ℚ
  mod_name : String
deriving DecidableEq, Repr

/-- OrderItem from src/models/order.py. -/
structure OrderItem where
  id : ℤ
  item_id : ℤ
  quantity : ℤ
  item_price : ℚ
  mods_price : ℚ
  total_price : ℚ
  mods : List OrderItemMod
deriving DecidableEq, Repr

/-- OrderDiscount from src/models/discount.py: frozen application of a
discount to an order. -/
structure OrderDiscount where
  discount_id : ℤ
  amount_applied : ℚ
  name : String
deriving DecidableEq, Repr

/-- Order from src/models/order.py.  created_at is an abstract timestamp. -/
structure Order where
  id : ℤ
  order_number : ℤ
  staff_id : ℤ
  staff_name : String
  status : OrderStatus
  subtotal : ℚ
  tax : ℚ
  card_fee : ℚ
  total : ℚ
  payment_method : Option PaymentMethod
  created_at : ℤ
  items : List OrderItem
  discounts : List OrderDiscount
deriving DecidableEq, Repr

/-- CardFeeSettings from src/models/system.py. -/
structure CardFeeSettings where
  available : Bool
  percentage_amount : ℚ
  min_fee : ℚ
deriving DecidableEq, Repr

/-- Order.get_total_discount: sum of amount_applied over the order
discounts. -/
def Order.get_total_discount (o : Order) : ℚ :=
  (o.discounts.map (fun d => d.amount_applied)).sum

/-- The card fee value Order.calculate_card_fee assigns to self.card_fee
(src/models/order.py): each branch of that method stores one value into
self.card_fee, collected here. -/
def Order.card_fee_value (o : Order) (settings : Option CardFeeSettings) :
    ℚ :=
  if o.payment_method = some PaymentMethod.card then
    match settings with
    | some s =>
      if s.available then
        let base_amount := o.subtotal - o.get_total_discount + o.tax
        round2 (max (base_amount * s.percentage_amount) s.min_fee)
      else 0
    | none => 0
  else 0

/-- Order.calculate_card_fee from src/models/order.py.  The db session query
for the CardFeeSettings row is modelled by the Option argument. -/
def Order.calculate_card_fee (o : Order) (settings : Option CardFeeSettings) :
    Order :=
  { o with card_fee := o.card_fee_value settings }

/-- Order.calculate_total from src/models/order.py: recompute the card fee,
then set total = round(subtotal - total_discount + tax + card_fee, 2). -/
def Order.calculate_total (o : Order) (settings : Option CardFeeSettings) :
    Order :=
  let total_discount := o.get_total_discount
  let base_total := o.subtotal - total_discount + o.tax
  let o1 := o.calculate_card_fee settings
  { o1 with total := round2 (base_total + o1.card_fee) }

/-- Discount.calculate_discount_amount from src/models/discount.py. -/
def Discount.calculate_discount_amount (d : Discount) (subtotal : ℚ) : ℚ :=
  if !d.available || !d.group.available then 0
  else if d.is_percentage then round2 (subtotal * d.amount / 100)
  else |d.amount|

/-- Order.apply_discount from src/models/order.py: returns none for the
False branch (discount or its group unavailable), otherwise appends the
frozen OrderDiscount and recomputes the total. -/
def Order.apply_discount (o : Order) (d : Discount)
    (settings : Option CardFeeSettings) : Option Order :=
  if !d.available || !d.group.available then none
  else
    let discount_amount := d.calculate_discount_amount o.subtotal
    let order_discount : OrderDiscount :=
      { discount_id := d.id, amount_applied := discount_amount,
        name := d.name }
    some (Order.calculate_total
      { o with discounts := o.discounts ++ [order_discount] } settings)

/-- The discount row as read by calculate_order_totals in
src/utils/order_validation.py: that function accesses attributes named
active, discount_type and amount on the row its query returns.  (The
Discount model in src/models/discount.py has no active or discount_type
columns; this record captures the fields the function itself reads.) -/
structure VDiscountRow where
  active : Bool
  discount_type : String
  amount : ℚ
deriving DecidableEq, Repr

/-- The card fee row as read by calculate_order_totals: fields active,
percentage and flat_amount.  (No CardFee model exists under src/models; this
record captures the fields the function itself reads.) -/
structure CardFeeRow where
  active : Bool
  percentage : ℚ
  flat_amount : ℚ
deriving DecidableEq, Repr

/-- The dict returned by calculate_order_totals. -/
structure OrderTotals where
  subtotal : ℚ
  discount_amount : ℚ
  total_after_discount : ℚ
  card_fee_amount : ℚ
  tip_amount : ℚ
  total : ℚ
deriving DecidableEq, Repr

/-- Modelled from the spec: calculate_order_totals calls
OrderItem.calculate_subtotal, which is defined nowhere in the repository;
section 4.1 of the spec gives the line subtotal as
(item_price + mods_price) x quantity. -/
def OrderItem.calculate_subtotal (it : OrderItem) : ℚ :=
  (it.item_price + it.mods_price) * it.quantity

/-- calculate_order_totals from src/utils/order_validation.py.  The discount
and card fee queries by id are modelled by the Option row arguments; the
active filter of each query is kept as the explicit active test. -/
def calculate_order_totals (order : Order)
    (discount_row : Option VDiscountRow) (card_fee_row : Option CardFeeRow)
    (tip_amount : ℚ) : OrderTotals :=
  let subtotal := (order.items.map OrderItem.calculate_subtotal).sum
  let discount_amount :=
    match discount_row with
    | some d =>
      if d.active then
        if d.discount_type = "percentage" then subtotal * (d.amount / 100)
        else d.amount
      else 0
    | none => 0
  let total_after_discount := subtotal - discount_amount
  let card_fee_amount :=
    match card_fee_row with
    | some cf =>
      if cf.active then
        total_after_discount * (cf.percentage / 100) + cf.flat_amount
      else 0
    | none => 0
  let final_total := total_after_discount + card_fee_amount + tip_amount
  { subtotal := subtotal
    discount_amount := discount_amount
    total_after_discount := total_after_discount
    card_fee_amount := card_fee_amount
    tip_amount := tip_amount
    total := final_total }

/-- validate_payment from src/utils/order_validation.py. -/
def validate_payment (payment_method : String) (total : ℚ)
    (cash_tendered : Option ℚ) : Except String ℚ :=
  if payment_method = "cash" then
    match cash_tendered with
    | none =>
      Except.error "Cash tendered amount is required for cash payments"
    | some c =>
      if c < total then Except.error "Insufficient cash tendered"
      else Except.ok (c - total)
  else if payment_method = "card" then
    match cash_tendered with
    | some _ =>
      Except.error "Cash tendered should not be provided for card payments"
    | none => Except.ok 0
  else Except.error "Invalid payment method"

/-- get_next_order_number from src/utils/order_validation.py: take the
highest order_number among orders created since today_start (the query
orders by order_number descending and takes the first row), add one, wrap
to 1 past 99; return 1 when no order exists for the day. -/
def get_next_order_number (db : List Order) (today_start : ℤ) : ℤ :=
  match (db.filter (fun o => today_start ≤ o.created_at)).map
      (fun o => o.order_number) with
  | [] => 1
  | n :: ns => if ns.foldl max n + 1 > 99 then 1 else ns.foldl max n + 1

/-- validate_order_number from src/utils/order_management.py: true when no
active (PREP or READY) order holds the number. -/
def validate_order_number (db : List Order) (n : ℤ) : Bool :=
  db.all (fun o => !(o.order_number = n && activeStatus o.status))

/-- OrderHistory from src/models/order.py: the archival snapshot row. -/
structure OrderHistory where
  order_id : ℤ
  order_number : ℤ
  staff_id : ℤ
  staff_name : String
  status : OrderStatus
  subtotal : ℚ
  tax : ℚ
  card_fee : ℚ
  total : ℚ
  payment_method : Option PaymentMethod
  created_at : ℤ
  items_data : List OrderItem
  discounts_data : List OrderDiscount
deriving DecidableEq, Repr

/-- OrderHistory.from_order from src/models/order.py: copy every field of
the order, including the full item and discount snapshot. -/
def OrderHistory.from_order (o : Order) : OrderHistory :=
  { order_id := o.id
    order_number := o.order_number
    staff_id := o.staff_id
    staff_name := o.staff_name
    status := o.status
    subtotal := o.subtotal
    tax := o.tax
    card_fee := o.card_fee
    total := o.total
    payment_method := o.payment_method
    created_at := o.created_at
    items_data := o.items
    discounts_data := o.discounts }

/-- The archival condition of archive_completed_orders: status in
DONE, VOID, REFUNDED, PARTIALLY_REFUNDED and created before the cutoff. -/
def archivable (cutoff : ℤ) (o : Order) : Bool :=
  completedStatus o.status && decide (o.created_at < cutoff)

/-- archive_completed_orders from src/utils/order_management.py, success
path: snapshot every order whose status is completed and whose created_at
is before the cutoff into OrderHistory, delete those orders from the live
table, return the new live table, the new history table and the archived
count. -/
def archive_completed_orders (db : List Order) (hist : List OrderHistory)
    (cutoff : ℤ) : List Order × List OrderHistory × ℕ :=
  (db.filter (fun o => !(archivable cutoff o)),
   hist ++ (db.filter (archivable cutoff)).map OrderHistory.from_order,
   (db.filter (archivable cutoff)).length)

/-- ClientType from src/utils/websocket.py. -/
inductive ClientType
  | pos
  | customerDisplay
  | kitchenDisplay
deriving DecidableEq, Repr

/-- ConnectionManager state from src/utils/websocket.py: the per-type
connection dict keys and the active_orders dict (client id to watched order
ids).  Dict keys are unique, so a dict is a key list and deleting a key is
filtering it out; a watched set is its element list. -/
structure ConnectionManager where
  pos_clients : List String
  customer_display_clients : List String
  kitchen_display_clients : List String
  active_orders : List (String × List ℤ)
deriving DecidableEq, Repr

/-- self.connections[client_type] keys. -/
def ConnectionManager.clientsOf (m : ConnectionManager) :
    ClientType → List String
  | ClientType.pos => m.pos_clients
  | ClientType.customerDisplay => m.customer_display_clients
  | ClientType.kitchenDisplay => m.kitchen_display_clients

/-- ConnectionManager.disconnect: delete the client id from the dict of the
given type when present, and delete its active_orders entry when present. -/
def ConnectionManager.disconnect (m : ConnectionManager) (ct : ClientType)
    (cid : String) : ConnectionManager :=
  { pos_clients :=
      if ct = ClientType.pos then m.pos_clients.filter (fun c => c ≠ cid)
      else m.pos_clients
    customer_display_clients :=
      if ct = ClientType.customerDisplay then
        m.customer_display_clients.filter (fun c => c ≠ cid)
      else m.customer_display_clients
    kitchen_display_clients :=
      if ct = ClientType.kitchenDisplay then
        m.kitchen_display_clients.filter (fun c => c ≠ cid)
      else m.kitchen_display_clients
    active_orders := m.active_orders.filter (fun e => e.1 ≠ cid) }

/-- ConnectionManager.remove_active_order: when the client has an
active_orders entry, discard the order id from its watched set. -/
def ConnectionManager.remove_active_order (m : ConnectionManager)
    (cid : String) (oid : ℤ) : ConnectionManager :=
  { m with active_orders := (m.active_orders.map (fun e =>
      if e.1 = cid then (e.1, e.2.filter (fun x => x ≠ oid)) else e)) }

/-- ConnectionManager.broadcast_to_type: the list of (type, client id)
deliveries it performs, one per connected client of the type. -/
def ConnectionManager.broadcast_to_type (m : ConnectionManager)
    (ct : ClientType) : List (ClientType × String) :=
  (m.clientsOf ct).map (fun cid => (ct, cid))

/-- ConnectionManager.send_to_client: delivers only when the client id is in
the dict of the given type. -/
def ConnectionManager.send_to_client (m : ConnectionManager)
    (ct : ClientType) (cid : String) : List (ClientType × String) :=
  if cid ∈ m.clientsOf ct then [(ct, cid)] else []

/-- ConnectionManager.broadcast_order_update from src/utils/websocket.py:
deliveries for one order update with the given order id and status string
from order_data.  POS clients get it unconditionally; every active_orders
entry watching the order id gets a send_to_client on the customer display
dict; kitchen displays get it only when the status string equals the
literal "open". -/
def ConnectionManager.broadcast_order_update (m : ConnectionManager)
    (order_id : ℤ) (status : String) : List (ClientType × String) :=
  m.broadcast_to_type ClientType.pos ++
  (m.active_orders.map
      (fun e => if order_id ∈ e.2 then
          m.send_to_client ClientType.customerDisplay e.1
        else [])).flatten ++
  (if status = "open" then m.broadcast_to_type ClientType.kitchenDisplay
   else [])

/-- update_order_status route handler (PATCH) from src/routes/order.py,
restricted to the status argument.  Building its valid_transitions table
evaluates OrderStatus.CANCELLED, which the enum does not define, so with a
status present the handler stops with an AttributeError. -/
def update_order_status (order : Order) (statusArg : Option String) :
    Except String Order :=
  match statusArg with
  | none => Except.ok order
  | some s =>
    match statusAttr "CANCELLED" with
    | none =>
      Except.error "AttributeError: OrderStatus has no attribute CANCELLED"
    | some cancelled =>
      match statusFromValue s with
      | none => Except.error "Invalid status"
      | some new_status =>
        let valid : List OrderStatus :=
          match order.status with
          | OrderStatus.prep => [OrderStatus.ready, cancelled]
          | OrderStatus.ready => [OrderStatus.done]
          | _ => []
        if new_status ∈ valid then
          Except.ok { order with status := new_status }
        else Except.error "Invalid status transition"

/-- cancel_order route handler from src/routes/order.py: only PREP orders
pass the guard, then the assignment evaluates OrderStatus.CANCELLED, which
the enum does not define. -/
def cancel_order (order : Order) : Except String Order :=
  if order.status ≠ OrderStatus.prep then
    Except.error "Can only cancel orders in PREP status"
  else
    match statusAttr "CANCELLED" with
    | none =>
      Except.error "AttributeError: OrderStatus has no attribute CANCELLED"
    | some cancelled => Except.ok { order with status := cancelled }

/-- close_order route handler from src/routes/order.py: requires READY, sets
the payment method, recomputes card fee and total, validates cash payment,
then marks the order DONE. -/
def close_order (order : Order) (pm : PaymentMethod)
    (cash_tendered : Option ℚ) (settings : Option CardFeeSettings) :
    Except String Order :=
  if order.status ≠ OrderStatus.ready then
    Except.error "Order must be READY to close"
  else
    let o1 := { order with payment_method := some pm }
    let o2 := if pm = PaymentMethod.card then o1.calculate_card_fee settings
              else o1
    let o3 := o2.calculate_total settings
    if pm = PaymentMethod.cash then
      match validate_payment "cash" o3.total cash_tendered with
      | Except.error e => Except.error e
      | Except.ok _ => Except.ok { o3 with status := OrderStatus.done }
    else Except.ok { o3 with status := OrderStatus.done }

/-- process_payment route handler from src/routes/payment.py: the only
status guard is the rejection of orders already DONE; any other status may
be paid straight to DONE.  net_ok models network_manager.enable_internet.
In the card branch the handler calls process_card_payment with keyword
arguments order_id and order_number that the function signature in
src/utils/square.py (amount, source_id, location_id) does not accept, so
the call raises TypeError, converted by the generic exception handler into
a 500 error: a card payment never succeeds.  Only the cash branch can
complete. -/
def process_payment (order : Order) (payment_method : String) (amount : ℚ)
    (cash_tendered : Option ℚ) (net_ok : Bool) : Except String Order :=
  if order.status = OrderStatus.done then
    Except.error "Order is already paid"
  else if payment_method = "card" then
    if !net_ok then
      Except.error "Failed to establish internet connection"
    else
      Except.error
        "TypeError: process_card_payment got an unexpected keyword argument"
  else if payment_method = "cash" then
    match cash_tendered with
    | none => Except.error "Cash tendered amount is required"
    | some c =>
      if c < amount then Except.error "Insufficient cash tendered"
      else Except.ok { order with payment_method := some PaymentMethod.cash,
                                  status := OrderStatus.done }
  else Except.error "Invalid payment method"

/-- process_refund route handler from src/routes/payment.py: admin only,
requires DONE or PARTIALLY_REFUNDED, then opens the network window.  The
handler definition shadows the process_refund imported from utils.square,
so the refund call inside it resolves to the handler itself, with keyword
arguments amount and reason that the handler signature rejects: the call
raises TypeError before any status change and the generic exception
handler converts it into a 500 error.  No refund ever succeeds, so the
refund amount and reason of the request body are never consulted. -/
def process_refund (order : Order) (isAdmin : Bool) (net_ok : Bool) :
    Except String Order :=
  if !isAdmin then Except.error "Only admins can process refunds"
  else if !(order.status = OrderStatus.done ||
            order.status = OrderStatus.partRefunded) then
    Except.error "Order must be completed to process refund"
  else if !net_ok then
    Except.error "Failed to establish internet connection"
  else
    Except.error
      "TypeError: process_refund got an unexpected keyword argument"

/-- add_item route handler from src/routes/order.py, from its status guard
on: the guard compares against OrderStatus.OPEN, which the enum does not
define, so every request stops with an AttributeError; past the guard the
handler would append the item and overwrite the order subtotal and total
from calculate_order_totals. -/
def add_item (order : Order) (new_item : OrderItem)
    (discount_row : Option VDiscountRow) (card_fee_row : Option CardFeeRow)
    (tip_amount : ℚ) : Except String Order :=
  match statusAttr "OPEN" with
  | none => Except.error "AttributeError: OrderStatus has no attribute OPEN"
  | some openStatus =>
    if order.status ≠ openStatus then
      Except.error "Can only add items to open orders"
    else
      let order1 := { order with items := order.items ++ [new_item] }
      let totals :=
        calculate_order_totals order1 discount_row card_fee_row tip_amount
      Except.ok { order1 with subtotal := totals.subtotal,
                              total := totals.total }

/-- apply_discount route handler from src/routes/order.py: looks the
discount up, then calls Order.apply_discount.  The handler has no order
status guard at all. -/
def apply_discount_route (order : Order) (discountRow : Option Discount)
    (settings : Option CardFeeSettings) : Except String Order :=
  match discountRow with
  | none => Except.error "Discount not found"
  | some d =>
    match order.apply_discount d settings with
    | none => Except.error "Failed to apply discount"
    | some o1 => Except.ok o1

/-! Concrete values used by counterexamples and witnesses. -/

/-- A ten dollar line item, quantity one, no mods. -/
def cItem10 : OrderItem :=
  { id := 1, item_id := 1, quantity := 1, item_price := 10, mods_price := 0,
    total_price := 10, mods := [] }

/-- A PREP order holding one ten dollar item, tax 0.83, no discounts. -/
def cPrepOrder : Order :=
  { id := 1, order_number := 5, staff_id := 1, staff_name := "Alice",
    status := OrderStatus.prep, subtotal := 10, tax := 83/100,
    card_fee := 0, total := 1083/100, payment_method := none,
    created_at := 0, items := [cItem10], discounts := [] }

/-- The same order in READY status. -/
def cReadyOrder : Order := { cPrepOrder with id := 2,
                                             status := OrderStatus.ready }

/-- The same order completed and paid in cash. -/
def cDoneOrder : Order :=
  { cPrepOrder with id := 3, status := OrderStatus.done,
                    payment_method := some PaymentMethod.cash }

/-- The same order voided. -/
def cVoidOrder : Order := { cPrepOrder with id := 4,
                                            status := OrderStatus.void }

/-- An available ten percent discount in an available group. -/
def cPercDiscount : Discount :=
  { id := 100001, name := "Ten", amount := 10, is_percentage := true,
    available := true, group := { available := true } }

/-- The expected result of applying cPercDiscount to cPrepOrder. -/
def cAppliedPrep : Order :=
  { cPrepOrder with
      discounts := [{ discount_id := 100001, amount_applied := 1,
                      name := "Ten" }],
      card_fee := 0, total := 983/100 }

/-- The expected result of applying cPercDiscount to cDoneOrder through the
route handler. -/
def cAppliedDone : Order :=
  { cDoneOrder with
      discounts := [{ discount_id := 100001, amount_applied := 1,
                      name := "Ten" }],
      card_fee := 0, total := 983/100 }

/-- Active order holding number 1, created today. -/
def cOrderN1 : Order := { cPrepOrder with id := 11, order_number := 1 }

/-- Active order holding number 99, created today. -/
def cOrderN99 : Order := { cPrepOrder with id := 12, order_number := 99 }

/-- A day with the full wraparound collision: numbers 99 and 1 both held by
active orders. -/
def cDb3 : List Order := [cOrderN99, cOrderN1]

/-- A completed order old enough to archive. -/
def cArchOrder : Order := { cPrepOrder with id := 21,
                                            status := OrderStatus.done }

/-- An active order that must stay live. -/
def cKeepOrder : Order := { cPrepOrder with id := 22 }

/-- Live order table for the archival witness. -/
def cDb8 : List Order := [cArchOrder, cKeepOrder]

/-- A manager with one kitchen display client only. -/
def cManagerK : ConnectionManager :=
  { pos_clients := [], customer_display_clients := [],
    kitchen_display_clients := ["k"], active_orders := [] }

/-- A manager with one client of each type; the customer display watches
order 7. -/
def cManagerFull : ConnectionManager :=
  { pos_clients := ["p"], customer_display_clients := ["c"],
    kitchen_display_clients := ["k"], active_orders := [("c", [7])] }

/-- A discount row as calculate_order_totals reads it: active flat discount
stored as -5 (flat discounts are stored negative per the Discount model
comment). -/
def cFlatRow : VDiscountRow :=
  { active := true, discount_type := "flat", amount := -5 }

/-- The sample order paying by card. -/
def cCardOrder : Order :=
  { cPrepOrder with id := 6, payment_method := some PaymentMethod.card }

/-- Available card fee settings: five percent, thirty cent minimum. -/
def cSettings : CardFeeSettings :=
  { available := true, percentage_amount := 5/100, min_fee := 30/100 }

/-- An available flat discount stored as -5, in an available group. -/
def cFlatDiscount : Discount :=
  { id := 100002, name := "FlatOff", amount := -5, is_percentage := false,
    available := true, group := { available := true } }

/-! Helper lemmas shared by the claim theorems. -/

/-- Order.calculate_total leaves its output in the state where the stored
total is the rounded sum of the other stored price fields. -/
theorem calculate_total_invariant (o : Order) (s : Option CardFeeSettings) :
    (o.calculate_total s).total =
      round2 ((o.calculate_total s).subtotal -
        (o.calculate_total s).get_total_discount +
        (o.calculate_total s).tax + (o.calculate_total s).card_fee) := rfl

/-- Filtering keeps a list intact when every element satisfies the
predicate. -/
theorem filter_all {α : Type} (p : α → Bool) (l : List α)
    (h : ∀ a ∈ l, p a = true) : l.filter p = l := by
  induction l with
  | nil => rfl
  | cons a t ih =>
    have ha := h a (List.mem_cons_self a t)
    simp only [List.filter_cons, ha, if_true]
    exact congrArg (List.cons a) (ih (fun x hx => h x (List.mem_cons_of_mem a hx)))

/-- Filtering twice with one predicate equals filtering once. -/
theorem filter_idem {α : Type} (p : α → Bool) (l : List α) :
    (l.filter p).filter p = l.filter p :=
  filter_all p (l.filter p) (fun _ hx => List.of_mem_filter hx)

/-- Filtering drops everything when no element satisfies the predicate. -/
theorem filter_none {α : Type} (p : α → Bool) (l : List α)
    (h : ∀ a ∈ l, p a = false) : l.filter p = [] := by
  induction l with
  | nil => rfl
  | cons a t ih =>
    simp only [List.filter_cons, h a (List.mem_cons_self a t),
      Bool.false_eq_true, if_false]
    exact ih (fun x hx => h x (List.mem_cons_of_mem a hx))

/-- Filtering a mapped history list is mapping the filtered order list. -/
theorem filter_map_from_order (l : List Order) (q : OrderHistory → Bool) :
    (l.map OrderHistory.from_order).filter q =
      (l.filter (fun o => q (OrderHistory.from_order o))).map
        OrderHistory.from_order := by
  induction l with
  | nil => rfl
  | cons a t ih =>
    simp only [List.map_cons, List.filter_cons]
    cases hq : q (OrderHistory.from_order a) <;> simp [hq, ih]

/-- In a table whose ids are distinct, restricting any filtered sublist to
one id keeps exactly the row with that id, when its own row passes the
filter. -/
theorem filter_key_pair (l : List Order) (o : Order) (p : Order → Bool) :
    (l.map (fun x => x.id)).Nodup → o ∈ l →
    (l.filter p).filter (fun x => x.id = o.id) =
      if p o then [o] else [] := by
  induction l with
  | nil =>
    intro _ h
    exact absurd h (List.not_mem_nil o)
  | cons a t ih =>
    intro hnd hmem
    simp only [List.map_cons, List.nodup_cons] at hnd
    obtain ⟨hna, hndt⟩ := hnd
    rcases List.mem_cons.1 hmem with heq | hmemt
    · subst heq
      have htail : ∀ x ∈ t.filter p, (decide (x.id = o.id)) = false := by
        intro x hx
        have hxt : x ∈ t := List.mem_of_mem_filter hx
        have hne : x.id ≠ o.id := by
          intro hcontra
          exact hna (hcontra ▸ List.mem_map_of_mem (fun y => y.id) hxt)
        exact decide_eq_false hne
      have htail2 : (t.filter p).filter (fun x => x.id = o.id) = [] :=
        filter_none _ _ htail
      cases hp : p o with
      | true => simp [List.filter_cons, hp, htail2]
      | false => simp [List.filter_cons, hp, htail2]
    · have hne : a.id ≠ o.id := by
        intro hcontra
        exact hna (hcontra ▸ List.mem_map_of_mem (fun y => y.id) hmemt)
      cases hp : p a with
      | true => simp [List.filter_cons, hp, hne, ih hndt hmemt]
      | false => simp [List.filter_cons, hp, ih hndt hmemt]

/-- Distinct mapped ids make the id projection injective on the list. -/
theorem nodup_id_inj (l : List Order)
    (hnd : (l.map (fun x => x.id)).Nodup) :
    ∀ x ∈ l, ∀ y ∈ l, x.id = y.id → x = y := by
  induction l with
  | nil =>
    intro x hx
    exact absurd hx (List.not_mem_nil x)
  | cons a t ih =>
    simp only [List.map_cons, List.nodup_cons] at hnd
    obtain ⟨hna, hndt⟩ := hnd
    intro x hx y hy hxy
    rcases List.mem_cons.1 hx with rfl | hxt
    · rcases List.mem_cons.1 hy with rfl | hyt
      · rfl
      · exfalso
        apply hna
        rw [hxy]
        exact List.mem_map_of_mem (fun z => z.id) hyt
    · rcases List.mem_cons.1 hy with rfl | hyt
      · exfalso
        apply hna
        rw [← hxy]
        exact List.mem_map_of_mem (fun z => z.id) hxt
      · exact ih hndt x hxt y hyt hxy

/-- Mapping a function that fixes every element of a list is the
identity. -/
theorem map_eq_self {α : Type} (f : α → α) (l : List α)
    (h : ∀ a ∈ l, f a = a) : l.map f = l := by
  induction l with
  | nil => rfl
  | cons a t ih =>
    simp only [List.map_cons, h a (List.mem_cons_self a t)]
    exact congrArg (List.cons a) (ih (fun x hx => h x (List.mem_cons_of_mem a hx)))

/-- The starting value bounds a foldl of max from below. -/
theorem le_foldl_max : ∀ (ns : List ℤ) (n : ℤ), n ≤ ns.foldl max n := by
  intro ns
  induction ns with
  | nil => intro n; simp
  | cons a t ih =>
    intro n
    simp only [List.foldl_cons]
    exact le_trans (le_max_left n a) (ih (max n a))

/-- A common upper bound of the start and all elements bounds a foldl of
max. -/
theorem foldl_max_le (b : ℤ) :
    ∀ (ns : List ℤ) (n : ℤ), n ≤ b → (∀ x ∈ ns, x ≤ b) →
      ns.foldl max n ≤ b := by
  intro ns
  induction ns with
  | nil => intro n h _; simpa using h
  | cons a t ih =>
    intro n h hall
    simp only [List.foldl_cons]
    exact ih (max n a) (max_le h (hall a (List.mem_cons_self a t)))
      (fun x hx => hall x (List.mem_cons_of_mem a hx))

/-! Claim theorems. -/

/-- C9: validate_payment with method card rejects a supplied cash_tendered
and returns 0 change when it is absent; with method cash and
cash_tendered at least the total it returns cash_tendered - total; any
other method string is rejected. -/
theorem C9_validate_payment :
    (∀ (t c : ℚ), validate_payment "card" t (some c) =
      Except.error "Cash tendered should not be provided for card payments") ∧
    (∀ t : ℚ, validate_payment "card" t none = Except.ok 0) ∧
    (∀ (t c : ℚ), t ≤ c →
      validate_payment "cash" t (some c) = Except.ok (c - t)) ∧
    (∀ (m : String) (t : ℚ) (ct : Option ℚ), m ≠ "cash" → m ≠ "card" →
      validate_payment m t ct = Except.error "Invalid payment method") := by
  refine ⟨fun t c => rfl, fun t => rfl, fun t c h => ?_, fun m t ct h1 h2 => ?_⟩
  · unfold validate_payment
    rw [if_pos rfl]
    exact if_neg (not_lt.2 h)
  · unfold validate_payment
    rw [if_neg h1, if_neg h2]

/-- C9 witness: concrete instances of the cash-change and invalid-method
clauses. -/
theorem C9_validate_payment_witness :
    validate_payment "cash" 10 (some 20) = Except.ok (20 - 10) ∧
    validate_payment "venmo" 10 none =
      Except.error "Invalid payment method" :=
  ⟨C9_validate_payment.2.2.1 10 20 (by norm_num),
   C9_validate_payment.2.2.2 "venmo" 10 none (by decide) (by decide)⟩

/-- C4: the computed card fee is 0 unless the payment method is CARD and
CardFeeSettings exists and is available, in which case it is
round(max(base x percentage_amount, min_fee), 2) with
base = subtotal - total_discount + tax. -/
theorem C4_card_fee :
    (∀ (o : Order) (s : Option CardFeeSettings),
        o.payment_method ≠ some PaymentMethod.card →
        (o.calculate_card_fee s).card_fee = 0) ∧
    (∀ o : Order, (o.calculate_card_fee none).card_fee = 0) ∧
    (∀ (o : Order) (st : CardFeeSettings), st.available = false →
        (o.calculate_card_fee (some st)).card_fee = 0) ∧
    (∀ (o : Order) (st : CardFeeSettings),
        o.payment_method = some PaymentMethod.card → st.available = true →
        (o.calculate_card_fee (some st)).card_fee =
          round2 (max ((o.subtotal - o.get_total_discount + o.tax) *
            st.percentage_amount) st.min_fee)) := by
  refine ⟨fun o s h => ?_, fun o => ?_, fun o st h => ?_, fun o st h1 h2 => ?_⟩
  · simp [Order.calculate_card_fee, Order.card_fee_value, h]
  · simp [Order.calculate_card_fee, Order.card_fee_value]
  · simp [Order.calculate_card_fee, Order.card_fee_value, h]
  · simp [Order.calculate_card_fee, Order.card_fee_value, h1, h2]

/-- C4 witness: the fee formula clause at the concrete card order and
settings. -/
theorem C4_card_fee_witness :
    (cCardOrder.calculate_card_fee (some cSettings)).card_fee =
      round2 (max ((cCardOrder.subtotal - cCardOrder.get_total_discount +
        cCardOrder.tax) * cSettings.percentage_amount) cSettings.min_fee) :=
  C4_card_fee.2.2.2 cCardOrder cSettings rfl rfl

/-- C1 (amended): after Order.calculate_total, and after a successful
Order.apply_discount, the stored total equals
round(subtotal - total_discount + tax + card_fee, 2) over the stored
fields; calculate_order_totals instead returns
total = subtotal - discount_amount + card_fee_amount + tip_amount, with no
tax term and no rounding. -/
theorem C1_total_formula :
    (∀ (o : Order) (s : Option CardFeeSettings),
        (o.calculate_total s).total =
          round2 ((o.calculate_total s).subtotal -
            (o.calculate_total s).get_total_discount +
            (o.calculate_total s).tax + (o.calculate_total s).card_fee)) ∧
    (∀ (o : Order) (d : Discount) (s : Option CardFeeSettings) (o1 : Order),
        o.apply_discount d s = some o1 →
        o1.total = round2 (o1.subtotal - o1.get_total_discount + o1.tax +
          o1.card_fee)) ∧
    (∀ (o : Order) (dr : Option VDiscountRow) (cf : Option CardFeeRow)
        (tip : ℚ),
        (calculate_order_totals o dr cf tip).total =
          (calculate_order_totals o dr cf tip).subtotal -
          (calculate_order_totals o dr cf tip).discount_amount +
          (calculate_order_totals o dr cf tip).card_fee_amount + tip) := by
  refine ⟨fun o s => calculate_total_invariant o s,
    fun o d s o1 h => ?_, fun o dr cf tip => rfl⟩
  unfold Order.apply_discount at h
  by_cases hb : (!d.available || !d.group.available) = true
  · rw [if_pos hb] at h
    exact absurd h (by simp)
  · rw [if_neg hb] at h
    simp only [Option.some.injEq] at h
    subst h
    exact calculate_total_invariant _ _

/-- C1 witness: the apply_discount clause at the concrete PREP order and
ten percent discount. -/
theorem C1_total_formula_witness :
    cAppliedPrep.total = round2 (cAppliedPrep.subtotal -
      cAppliedPrep.get_total_discount + cAppliedPrep.tax +
      cAppliedPrep.card_fee) :=
  C1_total_formula.2.1 cPrepOrder cPercDiscount none cAppliedPrep (by
    norm_num [Order.apply_discount, Discount.calculate_discount_amount,
      Order.calculate_total, Order.calculate_card_fee, Order.card_fee_value,
      Order.get_total_discount, cPrepOrder, cPercDiscount, cAppliedPrep,
      cItem10, round2, roundHalfEven])

/-- C1 counterexample: on the calculate_order_totals path the claimed
invariant total = round(subtotal - total_discount + tax + card_fee, 2)
fails for an order with tax 0.83: the function returns total 10 while the
claimed formula gives 10.83. -/
theorem C1_counterexample :
    (calculate_order_totals cPrepOrder none none 0).total = 10 ∧
    round2 ((calculate_order_totals cPrepOrder none none 0).subtotal -
      (calculate_order_totals cPrepOrder none none 0).discount_amount +
      cPrepOrder.tax +
      (calculate_order_totals cPrepOrder none none 0).card_fee_amount) =
      1083/100 ∧
    (10 : ℚ) ≠ 1083/100 := by
  refine ⟨?_, ?_, by norm_num⟩
  · norm_num [calculate_order_totals, OrderItem.calculate_subtotal,
      cPrepOrder, cItem10]
  · norm_num [calculate_order_totals, OrderItem.calculate_subtotal,
      cPrepOrder, cItem10, round2, roundHalfEven]

/-- C2 (amended): Discount.calculate_discount_amount resolves discounts as
the claim states (0 when the discount or its group is unavailable, rounded
percentage of subtotal, absolute value for flat); calculate_order_totals
instead computes percentage discounts unrounded and flat discounts as the
raw stored amount, keeping its sign. -/
theorem C2_discount_resolution :
    (∀ (d : Discount) (st : ℚ),
        d.available = false ∨ d.group.available = false →
        d.calculate_discount_amount st = 0) ∧
    (∀ (d : Discount) (st : ℚ), d.available = true →
        d.group.available = true → d.is_percentage = true →
        d.calculate_discount_amount st = round2 (st * d.amount / 100)) ∧
    (∀ (d : Discount) (st : ℚ), d.available = true →
        d.group.available = true → d.is_percentage = false →
        d.calculate_discount_amount st = |d.amount|) ∧
    (∀ (o : Order) (d : VDiscountRow) (cf : Option CardFeeRow) (tip : ℚ),
        d.active = true → d.discount_type = "percentage" →
        (calculate_order_totals o (some d) cf tip).discount_amount =
          (calculate_order_totals o (some d) cf tip).subtotal *
            (d.amount / 100)) ∧
    (∀ (o : Order) (d : VDiscountRow) (cf : Option CardFeeRow) (tip : ℚ),
        d.active = true → d.discount_type ≠ "percentage" →
        (calculate_order_totals o (some d) cf tip).discount_amount =
          d.amount) := by
  refine ⟨fun d st h => ?_, fun d st h1 h2 h3 => ?_, fun d st h1 h2 h3 => ?_,
    fun o d cf tip h1 h2 => ?_, fun o d cf tip h1 h2 => ?_⟩
  · rcases h with h | h <;> simp [Discount.calculate_discount_amount, h]
  · simp [Discount.calculate_discount_amount, h1, h2, h3]
  · simp [Discount.calculate_discount_amount, h1, h2, h3]
  · simp [calculate_order_totals, h1, h2]
  · simp [calculate_order_totals, h1, h2]

/-- C2 witness: the flat clause at the concrete flat discount, and the
percentage clause of the model path at the ten percent discount. -/
theorem C2_discount_resolution_witness :
    cFlatDiscount.calculate_discount_amount 10 = |cFlatDiscount.amount| ∧
    cPercDiscount.calculate_discount_amount 10 =
      round2 (10 * cPercDiscount.amount / 100) :=
  ⟨C2_discount_resolution.2.2.1 cFlatDiscount 10 rfl rfl rfl,
   C2_discount_resolution.2.1 cPercDiscount 10 rfl rfl rfl⟩

/-- C2 counterexample: calculate_order_totals resolves an active flat
discount stored as -5 to a contribution of -5, not abs(-5): the claim that
a flat discount contributes abs(amount) fails on that resolution path. -/
theorem C2_counterexample :
    (calculate_order_totals cPrepOrder (some cFlatRow) none
        0).discount_amount = -5 ∧
    (calculate_order_totals cPrepOrder (some cFlatRow) none
        0).discount_amount ≠ |cFlatRow.amount| := by
  have hval : (calculate_order_totals cPrepOrder (some cFlatRow) none
      0).discount_amount = -5 := by
    norm_num [calculate_order_totals, cFlatRow, cPrepOrder, cItem10,
      OrderItem.calculate_subtotal]
    decide
  have habs : |cFlatRow.amount| = 5 := by
    show |(-5 : ℚ)| = 5
    rw [abs_neg]
    exact abs_of_pos (by norm_num)
  refine ⟨hval, ?_⟩
  rw [hval, habs]
  norm_num

/-- C3 (amended): get_next_order_number stays in [1, 99] whenever the
stored order numbers do, and returns 1 when no order exists for the day;
validate_order_number recognises a number collision with an active order,
but the allocator itself performs no such check and raises no capacity
error (it is total and simply wraps, see the counterexample). -/
theorem C3_allocator :
    (∀ (db : List Order) (ts : ℤ),
        (∀ o ∈ db, 1 ≤ o.order_number ∧ o.order_number ≤ 99) →
        1 ≤ get_next_order_number db ts ∧
          get_next_order_number db ts ≤ 99) ∧
    (∀ (db : List Order) (ts : ℤ),
        db.filter (fun o => ts ≤ o.created_at) = [] →
        get_next_order_number db ts = 1) ∧
    (∀ (db : List Order) (n : ℤ),
        validate_order_number db n = true ↔
          ∀ o ∈ db, ¬(o.order_number = n ∧ activeStatus o.status = true)) := by
  refine ⟨fun db ts h => ?_, fun db ts h => ?_, fun db n => ?_⟩
  · unfold get_next_order_number
    cases hm : (db.filter (fun o => ts ≤ o.created_at)).map
        (fun o => o.order_number) with
    | nil =>
      exact ⟨by norm_num, by norm_num⟩
    | cons a t =>
      have hall : ∀ x ∈ a :: t, 1 ≤ x ∧ x ≤ 99 := by
        intro x hx
        rw [← hm] at hx
        obtain ⟨o, ho, rfl⟩ := List.mem_map.1 hx
        exact h o (List.mem_of_mem_filter ho)
      have h1 : 1 ≤ t.foldl max a :=
        le_trans (hall a (List.mem_cons_self a t)).1 (le_foldl_max t a)
      have h2 : t.foldl max a ≤ 99 :=
        foldl_max_le 99 t a (hall a (List.mem_cons_self a t)).2
          (fun x hx => (hall x (List.mem_cons_of_mem a hx)).2)
      show 1 ≤ (if t.foldl max a + 1 > 99 then 1 else t.foldl max a + 1) ∧
        (if t.foldl max a + 1 > 99 then 1 else t.foldl max a + 1) ≤ 99
      constructor <;> split <;> omega
  · unfold get_next_order_number
    rw [h]
    rfl
  · unfold validate_order_number
    rw [List.all_eq_true]
    constructor
    · intro hb o ho hc
      have hx := hb o ho
      rw [hc.1, hc.2] at hx
      simp at hx
    · intro hp o ho
      by_cases he : o.order_number = n
      · cases hb : activeStatus o.status with
        | false => simp [he, hb]
        | true => exact absurd ⟨he, hb⟩ (hp o ho)
      · simp [he]

/-- C3 witness: the range and empty-day clauses at concrete tables. -/
theorem C3_allocator_witness :
    (1 ≤ get_next_order_number cDb3 0 ∧
      get_next_order_number cDb3 0 ≤ 99) ∧
    get_next_order_number ([] : List Order) 0 = 1 :=
  ⟨C3_allocator.1 cDb3 0 (by decide), C3_allocator.2.1 [] 0 rfl⟩

/-- C3 counterexample: with active orders holding numbers 99 and 1 today,
get_next_order_number wraps past 99 and returns 1, a number currently held
by an active PREP order, and raises no capacity error: the claimed
no-collision contract fails. -/
theorem C3_counterexample :
    get_next_order_number cDb3 0 = 1 ∧
    cOrderN1 ∈ cDb3 ∧ activeStatus cOrderN1.status = true ∧
    cOrderN1.order_number = 1 := by
  refine ⟨?_, ?_, rfl, rfl⟩
  · rfl
  · simp [cDb3]

/-- C5: contrary to the claim, PREP to READY via the PATCH handler and PREP
to VOID via the cancel handler both fail with an AttributeError because the
handlers reference OrderStatus.CANCELLED, which the enum does not define;
process_payment moves a VOID order straight to DONE by cash because its
only status guard rejects orders already DONE; and no refund ever succeeds
(for any order and flags process_refund returns an error, the TypeError of
its self-shadowing call on an admin DONE order), so the claimed DONE to
REFUNDED transition never happens.  READY to DONE via close_order does
succeed. -/
theorem C5_transitions_bug :
    update_order_status cPrepOrder (some "ready") =
      Except.error "AttributeError: OrderStatus has no attribute CANCELLED" ∧
    cancel_order cPrepOrder =
      Except.error "AttributeError: OrderStatus has no attribute CANCELLED" ∧
    process_payment cVoidOrder "cash" 10 (some 20) true =
      Except.ok { cVoidOrder with payment_method := some PaymentMethod.cash,
                                  status := OrderStatus.done } ∧
    process_refund cDoneOrder true true =
      Except.error
        "TypeError: process_refund got an unexpected keyword argument" ∧
    (∀ (o : Order) (adm net : Bool) (o1 : Order),
        process_refund o adm net ≠ Except.ok o1) ∧
    close_order cReadyOrder PaymentMethod.cash (some 20) none =
      Except.ok { cReadyOrder with
        payment_method := some PaymentMethod.cash,
        status := OrderStatus.done } := by
  refine ⟨rfl, rfl, ?_, rfl, ?_, ?_⟩
  · simp [process_payment, cVoidOrder, cPrepOrder]
    all_goals norm_num
  · intro o adm net o1 hcontra
    unfold process_refund at hcontra
    by_cases h1 : (!adm) = true
    · rw [if_pos h1] at hcontra
      exact Except.noConfusion hcontra
    · rw [if_neg h1] at hcontra
      by_cases h2 : (!(o.status = OrderStatus.done ||
          o.status = OrderStatus.partRefunded)) = true
      · rw [if_pos h2] at hcontra
        exact Except.noConfusion hcontra
      · rw [if_neg h2] at hcontra
        by_cases h3 : (!net) = true
        · rw [if_pos h3] at hcontra
          exact Except.noConfusion hcontra
        · rw [if_neg h3] at hcontra
          exact Except.noConfusion hcontra
  · simp [close_order, Order.calculate_total, Order.calculate_card_fee,
      Order.card_fee_value, Order.get_total_discount, validate_payment,
      cReadyOrder, cPrepOrder]
    all_goals norm_num [round2, roundHalfEven]

/-- C6: contrary to the claim, the apply_discount handler carries no status
guard and mutates a DONE order (appending a discount and recomputing the
total), while the add_item handler rejects every order, a PREP order
included, because its guard references OrderStatus.OPEN, which the enum
does not define. -/
theorem C6_mutation_guard_bug :
    apply_discount_route cDoneOrder (some cPercDiscount) none =
      Except.ok cAppliedDone ∧
    cAppliedDone.discounts ≠ cDoneOrder.discounts ∧
    cDoneOrder.status = OrderStatus.done ∧
    add_item cPrepOrder cItem10 none none 0 =
      Except.error "AttributeError: OrderStatus has no attribute OPEN" := by
  refine ⟨?_, ?_, rfl, rfl⟩
  · simp [apply_discount_route, Order.apply_discount,
      Discount.calculate_discount_amount, Order.calculate_total,
      Order.calculate_card_fee, Order.card_fee_value,
      Order.get_total_discount, cDoneOrder, cPrepOrder, cPercDiscount,
      cAppliedDone, cItem10]
    all_goals norm_num [round2, roundHalfEven]
  · simp [cAppliedDone, cDoneOrder, cPrepOrder]

/-- C7 (amended): an order update is delivered to every connected POS
client unconditionally and to every connected customer-display client
watching the order id; a kitchen-display client receives it exactly when
the status string of the update equals the literal "open", which is not the
value of any OrderStatus member, so kitchen displays receive no update for
an order in any real status. -/
theorem C7_broadcast :
    (∀ (m : ConnectionManager) (oid : ℤ) (st : String) (c : String),
        c ∈ m.pos_clients →
        (ClientType.pos, c) ∈ m.broadcast_order_update oid st) ∧
    (∀ (m : ConnectionManager) (oid : ℤ) (st : String) (c : String)
        (watched : List ℤ),
        (c, watched) ∈ m.active_orders → oid ∈ watched →
        c ∈ m.customer_display_clients →
        (ClientType.customerDisplay, c) ∈ m.broadcast_order_update oid st) ∧
    (∀ (m : ConnectionManager) (oid : ℤ) (st : String) (c : String),
        (ClientType.kitchenDisplay, c) ∈ m.broadcast_order_update oid st ↔
          st = "open" ∧ c ∈ m.kitchen_display_clients) ∧
    (∀ s : OrderStatus, statusValue s ≠ "open") := by
  refine ⟨?_, ?_, ?_, ?_⟩
  · intro m oid st c hc
    unfold ConnectionManager.broadcast_order_update
    apply List.mem_append_left
    apply List.mem_append_left
    exact List.mem_map_of_mem _ hc
  · intro m oid st c watched he hoid hc
    unfold ConnectionManager.broadcast_order_update
    apply List.mem_append_left
    apply List.mem_append_right
    refine List.mem_flatten.2 ⟨[(ClientType.customerDisplay, c)], ?_, by simp⟩
    have hval : (fun (e : String × List ℤ) =>
        if oid ∈ e.2 then m.send_to_client ClientType.customerDisplay e.1
        else []) (c, watched) = [(ClientType.customerDisplay, c)] := by
      have hc2 : c ∈ m.clientsOf ClientType.customerDisplay := hc
      simp [hoid, ConnectionManager.send_to_client, hc2]
    rw [← hval]
    exact List.mem_map_of_mem _ he
  · intro m oid st c
    constructor
    · intro hmem
      unfold ConnectionManager.broadcast_order_update at hmem
      rcases List.mem_append.1 hmem with h12 | h3
      · exfalso
        rcases List.mem_append.1 h12 with h1 | h2
        · unfold ConnectionManager.broadcast_to_type at h1
          obtain ⟨cid, _, heq⟩ := List.mem_map.1 h1
          exact absurd heq (by simp)
        · obtain ⟨l, hl, hx⟩ := List.mem_flatten.1 h2
          obtain ⟨e, _, rfl⟩ := List.mem_map.1 hl
          by_cases hoid : oid ∈ e.2
          · rw [if_pos hoid] at hx
            unfold ConnectionManager.send_to_client at hx
            by_cases hcc : e.1 ∈ m.clientsOf ClientType.customerDisplay
            · rw [if_pos hcc] at hx
              simp at hx
            · rw [if_neg hcc] at hx
              simp at hx
          · rw [if_neg hoid] at hx
            simp at hx
      · by_cases hst : st = "open"
        · rw [if_pos hst] at h3
          unfold ConnectionManager.broadcast_to_type at h3
          obtain ⟨cid, hcid, heq⟩ := List.mem_map.1 h3
          have hcc : cid = c := by simpa using congrArg Prod.snd heq
          exact ⟨hst, hcc ▸ hcid⟩
        · rw [if_neg hst] at h3
          simp at h3
    · rintro ⟨rfl, hc⟩
      unfold ConnectionManager.broadcast_order_update
      apply List.mem_append_right
      rw [if_pos rfl]
      exact List.mem_map_of_mem _ hc
  · intro s
    cases s <;> decide

/-- C7 witness: on the concrete manager, the POS client and the watching
customer display both receive the update. -/
theorem C7_broadcast_witness :
    (ClientType.pos, "p") ∈ cManagerFull.broadcast_order_update 7 "done" ∧
    (ClientType.customerDisplay, "c") ∈
      cManagerFull.broadcast_order_update 7 "done" :=
  ⟨C7_broadcast.1 cManagerFull 7 "done" "p" (by simp [cManagerFull]),
   C7_broadcast.2.1 cManagerFull 7 "done" "c" [7] (by simp [cManagerFull])
     (by simp) (by simp [cManagerFull])⟩

/-- C7 counterexample: a connected kitchen display receives nothing for an
order update whose status string is "prep", an open kitchen-relevant
status: the claimed kitchen delivery condition fails. -/
theorem C7_counterexample :
    statusValue OrderStatus.prep = "prep" ∧
    "k" ∈ cManagerK.kitchen_display_clients ∧
    (ClientType.kitchenDisplay, "k") ∉
      cManagerK.broadcast_order_update 1 (statusValue OrderStatus.prep) := by
  refine ⟨rfl, by simp [cManagerK], ?_⟩
  decide

/-- C8: archive_completed_orders archives exactly the completed orders
created before the cutoff; each archived order id appears in the new
history exactly once, carrying the full item and discount snapshot, and
leaves the live table; every other order stays live and is never
archived. -/
theorem C8_archive :
    ∀ (db : List Order) (hist : List OrderHistory) (cutoff : ℤ),
      (db.map (fun o => o.id)).Nodup →
      (∀ o ∈ db, ∀ h ∈ hist, h.order_id ≠ o.id) →
      ((∀ o ∈ db, archivable cutoff o = true →
          ((archive_completed_orders db hist cutoff).2.1.filter
              (fun h => h.order_id = o.id) =
            [OrderHistory.from_order o] ∧
           ∀ o2 ∈ (archive_completed_orders db hist cutoff).1,
             o2.id ≠ o.id)) ∧
       (∀ o ∈ db, archivable cutoff o = false →
          (o ∈ (archive_completed_orders db hist cutoff).1 ∧
           ∀ h ∈ (archive_completed_orders db hist cutoff).2.1,
             h.order_id ≠ o.id)) ∧
       (∀ h ∈ (archive_completed_orders db hist cutoff).2.1,
          h ∈ hist ∨ ∃ o ∈ db, archivable cutoff o = true ∧
            h = OrderHistory.from_order o) ∧
       (∀ o : Order, (OrderHistory.from_order o).items_data = o.items ∧
          (OrderHistory.from_order o).discounts_data = o.discounts ∧
          (OrderHistory.from_order o).order_id = o.id)) := by
  intro db hist cutoff hnd hfresh
  refine ⟨?_, ?_, ?_, fun o => ⟨rfl, rfl, rfl⟩⟩
  · intro o ho harch
    constructor
    · show (hist ++ (db.filter (archivable cutoff)).map
          OrderHistory.from_order).filter (fun h => h.order_id = o.id) =
        [OrderHistory.from_order o]
      rw [List.filter_append]
      have h1 : hist.filter (fun h => h.order_id = o.id) = [] :=
        filter_none _ _ (fun h hh => decide_eq_false (hfresh o ho h hh))
      rw [h1, filter_map_from_order,
        show (fun x => decide ((OrderHistory.from_order x).order_id = o.id))
          = (fun x => decide (x.id = o.id)) from rfl,
        filter_key_pair db o (archivable cutoff) hnd ho]
      simp [harch]
    · intro o2 ho2 hcontra
      have ho2db : o2 ∈ db := List.mem_of_mem_filter ho2
      have heq : o2 = o := nodup_id_inj db hnd o2 ho2db o ho hcontra
      subst heq
      have hneg := List.of_mem_filter ho2
      rw [harch] at hneg
      simp at hneg
  · intro o ho harch
    constructor
    · exact List.mem_filter.2 ⟨ho, by simp [harch]⟩
    · intro h hh hcontra
      rcases List.mem_append.1 hh with hh1 | hh2
      · exact hfresh o ho h hh1 hcontra
      · obtain ⟨x, hx, rfl⟩ := List.mem_map.1 hh2
        have hxdb : x ∈ db := List.mem_of_mem_filter hx
        have hxarch := List.of_mem_filter hx
        have heq : x = o := nodup_id_inj db hnd x hxdb o ho hcontra
        subst heq
        rw [harch] at hxarch
        simp at hxarch
  · intro h hh
    rcases List.mem_append.1 hh with hh1 | hh2
    · exact Or.inl hh1
    · obtain ⟨x, hx, rfl⟩ := List.mem_map.1 hh2
      exact Or.inr ⟨x, List.mem_of_mem_filter hx, List.of_mem_filter hx, rfl⟩

/-- C8 witness: archiving the concrete two-order table moves the DONE order
into history exactly once and out of the live table. -/
theorem C8_archive_witness :
    (archive_completed_orders cDb8 [] 5).2.1.filter
        (fun h => h.order_id = cArchOrder.id) =
      [OrderHistory.from_order cArchOrder] ∧
    ∀ o2 ∈ (archive_completed_orders cDb8 [] 5).1, o2.id ≠ cArchOrder.id :=
  (C8_archive cDb8 [] 5 (by decide) (by simp)).1 cArchOrder
    (by simp [cDb8]) (by decide)

/-- C10: disconnect and remove_active_order are total and idempotent:
removing an unknown client or unwatching an absent order id changes
nothing, and disconnect applied twice equals disconnect applied once. -/
theorem C10_registry :
    (∀ (m : ConnectionManager) (ct : ClientType) (cid : String),
        cid ∉ m.pos_clients → cid ∉ m.customer_display_clients →
        cid ∉ m.kitchen_display_clients →
        (∀ e ∈ m.active_orders, e.1 ≠ cid) →
        m.disconnect ct cid = m) ∧
    (∀ (m : ConnectionManager) (cid : String) (oid : ℤ),
        (∀ e ∈ m.active_orders, e.1 = cid → oid ∉ e.2) →
        m.remove_active_order cid oid = m) ∧
    (∀ (m : ConnectionManager) (ct : ClientType) (cid : String),
        (m.disconnect ct cid).disconnect ct cid = m.disconnect ct cid) := by
  refine ⟨?_, ?_, ?_⟩
  · intro m ct cid h1 h2 h3 h4
    obtain ⟨mp, mc, mk, ma⟩ := m
    cases ct with
    | pos =>
      simp [ConnectionManager.disconnect]
      exact ⟨fun a ha hc => h1 (hc ▸ ha),
        fun a b hab hc => h4 (a, b) hab hc⟩
    | customerDisplay =>
      simp [ConnectionManager.disconnect]
      exact ⟨fun a ha hc => h2 (hc ▸ ha),
        fun a b hab hc => h4 (a, b) hab hc⟩
    | kitchenDisplay =>
      simp [ConnectionManager.disconnect]
      exact ⟨fun a ha hc => h3 (hc ▸ ha),
        fun a b hab hc => h4 (a, b) hab hc⟩
  · intro m cid oid h
    obtain ⟨mp, mc, mk, ma⟩ := m
    simp only [ConnectionManager.remove_active_order, ConnectionManager.mk.injEq,
      true_and]
    apply map_eq_self
    intro e he
    by_cases hc : e.1 = cid
    · rw [if_pos hc]
      have hf : e.2.filter (fun x => x ≠ oid) = e.2 :=
        filter_all _ _ (fun x hx =>
          decide_eq_true (fun hxx => h e he hc (hxx ▸ hx)))
      rw [hf]
    · rw [if_neg hc]
  · intro m ct cid
    obtain ⟨mp, mc, mk, ma⟩ := m
    cases ct <;> simp [ConnectionManager.disconnect, filter_idem]

/-- C10 witness: on the concrete manager, disconnecting an unknown client
id and unwatching an absent order id both change nothing. -/
theorem C10_registry_witness :
    cManagerFull.disconnect ClientType.pos "x" = cManagerFull ∧
    cManagerFull.remove_active_order "c" 9 = cManagerFull :=
  ⟨C10_registry.1 cManagerFull ClientType.pos "x" (by decide) (by decide)
      (by decide) (by decide),
   C10_registry.2.1 cManagerFull "c" 9 (by decide)⟩

end POSSpec
